import Mathlib

set_option maxRecDepth 8000

/-!
Verification of the docker staging backend of the stager repository
(`backend` package, docker backend: `BuildRecipe`, `BuildStagingResponse`,
`validateRequest`, `compilerDownloadURL`, `dockerTimeout`,
`addDockerRegistryRules`, `buildDockerRegistryAddresses`,
`getDockerRegistryServices`, `addDockerCachingArguments`).

The Go code is embedded shallowly:

* machine integers are `Int` with explicit two's-complement wrapping
  (`toInt32`, `toInt64`, `toUInt64Nat`) where Go converts between sizes;
* the raw JSON `lifecycle_data` payload of a staging request is modelled as
  `Option DockerStagingData` (`none` = a payload `encoding/json` fails to
  decode into `DockerStagingData`);
* `encoding/json` marshalling/unmarshalling of the small wire values the
  backend touches is modelled by an executable parser for the JSON subset
  those values use (strings, flat objects and arrays, no escape sequences);
* the single HTTP GET against the consul catalog is modelled by threading a
  list of pending responses (`List HttpResult`) through the functions that
  perform requests; each GET consumes exactly the head of the list, so the
  returned remainder witnesses how many requests were made;
* `net/url` URLs are modelled as their scheme together with the raw string,
  with `URL.String()` as the identity on the raw string (faithful for the
  normalized URLs this backend handles);
* fallible Go functions returning `(T, error)` become `Except` / `Option`.
-/

namespace Stager

/-- Two's-complement wrap of an integer into the `int32` range,
modelling Go's `int32(x)` conversion. -/
def toInt32 (n : Int) : Int := (n + 2 ^ 31) % 2 ^ 32 - 2 ^ 31

/-- Two's-complement wrap of an integer into the `int64` range,
modelling Go's `int64` arithmetic results such as `time.Duration` products. -/
def toInt64 (n : Int) : Int := (n + 2 ^ 63) % 2 ^ 64 - 2 ^ 63

/-- Wrap of an integer into the `uint64` range, modelling Go's `uint64(x)`. -/
def toUInt64Nat (n : Int) : Nat := (n % 2 ^ 64).toNat

/-- The character `{` (written via its code so that brace characters never
appear literally inside string or character literals in this file). -/
def lbrace : Char := Char.ofNat 123

/-- The character `}` (written via its code). -/
def rbrace : Char := Char.ofNat 125

/-- models.EnvironmentVariable from the bbs models package. -/
structure EnvVar where
  name : String
  value : String
deriving DecidableEq, Repr

/-- models.SecurityGroupRule from the bbs models package (the fields the
stager uses). -/
structure SecurityGroupRule where
  protocol : String
  destinations : List String
  ports : List Nat
  portRange : Option (Nat × Nat) := none
deriving DecidableEq, Repr

/-- models.TCPProtocol. -/
def TCPProtocol : String := "tcp"

/-- cc_messages.DockerStagingData: the docker lifecycle payload. -/
structure DockerStagingData where
  dockerImageUrl : String
  dockerLoginServer : String := ""
  dockerUser : String := ""
  dockerPassword : String := ""
  dockerEmail : String := ""
deriving DecidableEq, Repr

/-- cc_messages.StagingRequestFromCC, restricted to the fields the docker
backend reads.  `lifecycleData` models the raw JSON payload as
decoded-or-undecodable (`none` = `json.Unmarshal` into `DockerStagingData`
fails). -/
structure StagingRequestFromCC where
  appId : String
  logGuid : String := ""
  fileDescriptors : Int := 0
  memoryMB : Int := 0
  diskMB : Int := 0
  timeout : Int := 0
  environment : List EnvVar := []
  egressRules : List SecurityGroupRule := []
  lifecycleData : Option DockerStagingData := none
deriving DecidableEq, Repr

/-- cc_messages.StagingError. -/
structure StagingError where
  id : String
  message : String
deriving DecidableEq, Repr

/-- backend.Config (backend.go itself is not under src/; the fields below are
the ones the docker backend code reads, plus — modelled from the spec — the
`min_*` floors carried by the configuration and the `StagerURL` used by
`Config.CallbackURL`).  The docker backend code never reads the `min*`
fields. -/
structure Config where
  taskDomain : String
  stagerURL : String
  fileServerURL : String
  dockerStagingStack : String := ""
  dockerRegistryAddress : String := ""
  insecureDockerRegistry : Bool := false
  consulCluster : String := ""
  lifecycles : List (String × String) := []
  minMemoryMB : Int := 1024
  minDiskMB : Int := 3072
  minFileDescriptors : Int := 0
  sanitizer : String → StagingError

/-- The action tree of the recipe DSL (the constructors of the bbs models
action types that the docker backend builds).  `timeout` durations are in
nanoseconds, as Go's `time.Duration`.  `models.WrapAction` is the protobuf
oneof wrapper and is modelled as the identity. -/
inductive ActionM where
  | download (artifact fromURL toDir cacheKey user : String)
  | run (path : String) (args : List String) (env : List EnvVar)
      (nofile : Nat) (user : String)
  | emitProgress (a : ActionM) (startMsg successMsg failureMsg : String)
  | serial (actions : List ActionM)
  | timeout (a : ActionM) (durationNs : Int)

/-- models.TaskDefinition, restricted to the fields the docker backend sets.
The `Annotation` field is called `annotationJson` here. -/
structure TaskDefinition where
  rootFs : String
  resultFile : String
  privileged : Bool
  memoryMb : Int
  diskMb : Int
  logSource : String
  logGuid : String
  egressRules : List SecurityGroupRule
  completionCallbackUrl : String
  annotationJson : String
  action : ActionM

/-- models.TaskCallbackResponse, restricted to the fields
`BuildStagingResponse` reads.  The `Annotation` field is called
`annotationJson` here. -/
structure TaskCallbackResponse where
  annotationJson : String
  failed : Bool
  failureReason : String
  result : String
deriving DecidableEq, Repr

/-- cc_messages.StagingResponseForCC.  The docker `LifecycleData` — built by
`helpers.BuildDockerStagingData` from the result's docker image (the helpers
package is not under src/; modelled from the spec: "the response's
lifecycle_data is built from docker_image") — is modelled as the docker image
it carries. -/
structure StagingResponseForCC where
  error : Option StagingError := none
  executionMetadata : String := ""
  detectedStartCommand : List (String × String) := []
  dockerImageLifecycleData : Option String := none
deriving DecidableEq, Repr

/-- docker_app_lifecycle.StagingDockerResult (external package; field names
from the spec: execution_metadata, detected_start_command, docker_image). -/
structure StagingDockerResult where
  executionMetadata : String
  detectedStartCommand : List (String × String)
  dockerImage : String
deriving DecidableEq, Repr

/-- consulServiceInfo: one entry of the consul catalog response. -/
structure ConsulServiceInfo where
  address : String
deriving DecidableEq, Repr

/-- The errors the docker backend can return (the named `Err*` values of the
backend package plus the anonymous `errors.New` / `fmt.Errorf` cases, plus
the failure modes of the modelled collaborators). -/
inductive BackendError where
  | missingAppId
  | missingDockerImageUrl
  | missingDockerCredentials
  | missingDockerRegistry
  | invalidDockerRegistryAddress
  | noCompilerDefined
  | compilerURLParseFailed
  | unknownScheme (s : String)
  | downloadURLParseFailed
  | lifecycleDataUnmarshalFailed
  | consulTransport (msg : String)
  | consulBodyUnmarshalFailed
  | annotationUnmarshalFailed
  | resultUnmarshalFailed
deriving DecidableEq, Repr

/-- The outcome of one HTTP GET: a transport error or a response body. -/
inductive HttpResult where
  | transportError (msg : String)
  | ok (body : String)
deriving DecidableEq, Repr

def DockerLifecycleName : String := "docker"

def DockerBuilderExecutablePath : String := "/tmp/docker_app_lifecycle/builder"

def DockerBuilderOutputPath : String := "/tmp/docker-result/result.json"

/-- backend.TaskLogSource (backend.go is not under src/; value "STG" from the
spec's static constants, asserted by the buildpack backend test in src). -/
def TaskLogSource : String := "STG"

def nsPerSecond : Int := 1000000000

/-- backend.DefaultStagingTimeout = 15 minutes, in nanoseconds (backend.go is
not under src/; value from the spec, asserted as `int64(15 * time.Minute)` by
the buildpack backend test in src). -/
def DefaultStagingTimeout : Int := 900 * nsPerSecond

/-! ### JSON subset

An executable model of `encoding/json` for the values this backend
marshals and unmarshals: strings, flat objects and arrays, with no escape
sequences inside strings.  This is the subset exercised by the annotation,
the consul catalog response and the docker staging result. -/

/-- A JSON value of the modelled subset. -/
inductive Jval where
  | str (s : String)
  | obj (fields : List (String × Jval))
  | arr (elems : List Jval)

def jsonWs (c : Char) : Bool :=
  c = ' ' || c = '\n' || c = '\t' || c = '\r'

def skipWs : List Char → List Char
  | [] => []
  | c :: cs => if jsonWs c then skipWs cs else c :: cs

/-- Parse the body of a JSON string after the opening quote (no escapes). -/
def parseStringBody : List Char → List Char → Option (String × List Char)
  | [], _ => none
  | c :: cs, acc =>
    if c = '\"' then some (String.mk acc.reverse, cs)
    else if c = '\\' then none
    else parseStringBody cs (c :: acc)

/-- Parse a JSON string literal (leading whitespace not allowed here). -/
def parseStringLit : List Char → Option (String × List Char)
  | c :: cs => if c = '\"' then parseStringBody cs [] else none
  | [] => none

mutual

/-- Parse one JSON value of the subset; `fuel` bounds the recursion depth. -/
def parseVal : Nat → List Char → Option (Jval × List Char)
  | 0, _ => none
  | fuel + 1, cs =>
    match skipWs cs with
    | [] => none
    | c :: rest =>
      if c = '\"' then
        match parseStringLit (c :: rest) with
        | some (s, rem) => some (Jval.str s, rem)
        | none => none
      else if c = lbrace then
        match skipWs rest with
        | c2 :: rest2 =>
          if c2 = rbrace then some (Jval.obj [], rest2)
          else
            match parseFieldsLoop fuel (c2 :: rest2) with
            | some (fs, rem) => some (Jval.obj fs, rem)
            | none => none
        | [] => none
      else if c = '[' then
        match skipWs rest with
        | c2 :: rest2 =>
          if c2 = ']' then some (Jval.arr [], rest2)
          else
            match parseElemsLoop fuel (c2 :: rest2) with
            | some (es, rem) => some (Jval.arr es, rem)
            | none => none
        | [] => none
      else none

/-- Parse the (nonempty) field list of a JSON object, including the closing
brace. -/
def parseFieldsLoop : Nat → List Char → Option (List (String × Jval) × List Char)
  | 0, _ => none
  | fuel + 1, cs =>
    match parseStringLit (skipWs cs) with
    | none => none
    | some (key, rem1) =>
      match skipWs rem1 with
      | ':' :: rem2 =>
        match parseVal fuel rem2 with
        | none => none
        | some (v, rem3) =>
          match skipWs rem3 with
          | ',' :: rem4 =>
            match parseFieldsLoop fuel rem4 with
            | some (fs, rem5) => some ((key, v) :: fs, rem5)
            | none => none
          | c :: rem4 => if c = rbrace then some ([(key, v)], rem4) else none
          | [] => none
      | _ => none

/-- Parse the (nonempty) element list of a JSON array, including the closing
bracket. -/
def parseElemsLoop : Nat → List Char → Option (List Jval × List Char)
  | 0, _ => none
  | fuel + 1, cs =>
    match parseVal fuel cs with
    | none => none
    | some (v, rem1) =>
      match skipWs rem1 with
      | ',' :: rem2 =>
        match parseElemsLoop fuel rem2 with
        | some (es, rem3) => some (v :: es, rem3)
        | none => none
      | ']' :: rem2 => some ([v], rem2)
      | _ => none

end

/-- Parse a complete JSON document of the subset (trailing whitespace only,
as `json.Unmarshal` requires). -/
def parseJson (s : String) : Option Jval :=
  match parseVal (s.length + 1) s.toList with
  | some (v, rem) => if skipWs rem = [] then some v else none
  | none => none

def lookupField (fs : List (String × Jval)) (k : String) : Option Jval :=
  match fs.find? (fun p => p.1 = k) with
  | some p => some p.2
  | none => none

/-- Decode an optional object field into a Go string: a missing field gives
the zero value `""`, a present non-string field is a decode error. -/
def jstrD : Option Jval → Option String
  | none => some ""
  | some (Jval.str s) => some s
  | some _ => none

def fieldsToPairs : List (String × Jval) → Option (List (String × String))
  | [] => some []
  | (k, Jval.str v) :: rest =>
    match fieldsToPairs rest with
    | some t => some ((k, v) :: t)
    | none => none
  | _ => none

/-- Decode an optional object field into a Go `map[string]string`: missing
field gives the zero value, a non-object or non-string-valued field is a
decode error. -/
def jobjPairs : Option Jval → Option (List (String × String))
  | none => some []
  | some (Jval.obj fs) => fieldsToPairs fs
  | some _ => none

/-- models `json.Marshal(cc_messages.StagingTaskAnnotation)` for
escape-free lifecycle names (the json tag of the `Lifecycle` field is
`lifecycle`; cc_messages is an external package, tag from the spec). -/
def marshalAnnot (lifecycle : String) : String :=
  "\x7b\"lifecycle\":\"" ++ lifecycle ++ "\"\x7d"

/-- models `json.Unmarshal` into `cc_messages.StagingTaskAnnotation`,
returning the `Lifecycle` field. -/
def unmarshalAnnot (s : String) : Option String :=
  match parseJson s with
  | some (Jval.obj fs) => jstrD (lookupField fs "lifecycle")
  | _ => none

def elemsToServices : List Jval → Option (List ConsulServiceInfo)
  | [] => some []
  | Jval.obj fs :: rest =>
    match jstrD (lookupField fs "Address"), elemsToServices rest with
    | some a, some t => some (ConsulServiceInfo.mk a :: t)
    | _, _ => none
  | _ => none

/-- models `json.Unmarshal` of the consul catalog body into
`[]consulServiceInfo`. -/
def unmarshalServices (s : String) : Option (List ConsulServiceInfo) :=
  match parseJson s with
  | some (Jval.arr es) => elemsToServices es
  | _ => none

/-- models `json.Unmarshal` of a task result into
`docker_app_lifecycle.StagingDockerResult`. -/
def unmarshalDockerResult (s : String) : Option StagingDockerResult :=
  match parseJson s with
  | some (Jval.obj fs) =>
    match jstrD (lookupField fs "execution_metadata"),
          jobjPairs (lookupField fs "detected_start_command"),
          jstrD (lookupField fs "docker_image") with
    | some em, some dsc, some di =>
      some { executionMetadata := em, detectedStartCommand := dsc, dockerImage := di }
    | _, _, _ => none
  | _ => none

/-! ### URLs -/

/-- A parsed URL, modelled as its scheme plus the raw string;
`URL.String()` is modelled as returning the raw string. -/
structure URLM where
  scheme : String
  raw : String
deriving DecidableEq, Repr

/-- The scheme scan of Go's `net/url` (`getScheme`): `Except.error ()` is the
"missing protocol scheme" error for a leading colon, `Except.ok none` means
no scheme, `Except.ok (some s)` is a scheme `s` terminated by a colon.
The accumulator holds the scheme characters seen so far, reversed. -/
def schemeSplit : List Char → List Char → Except Unit (Option String)
  | _, [] => Except.ok none
  | acc, c :: cs =>
    if c = ':' then
      if acc = [] then Except.error () else Except.ok (some (String.mk acc.reverse))
    else if c.isAlpha then schemeSplit (c :: acc) cs
    else if c.isDigit || c = '+' || c = '-' || c = '.' then
      if acc = [] then Except.ok none else schemeSplit (c :: acc) cs
    else Except.ok none

/-- models `url.Parse` (restricted to inputs whose `String()` round-trips
unchanged): extract and lowercase the scheme, keep the raw string. -/
def urlParse (s : String) : Except Unit URLM :=
  match schemeSplit [] s.toList with
  | Except.error _ => Except.error ()
  | Except.ok none => Except.ok { scheme := "", raw := s }
  | Except.ok (some sch) => Except.ok { scheme := sch.toLower, raw := s }

/-- models `url.ParseRequestURI`, which requires an absolute URL (a scheme
must be present). -/
def parseRequestURI (s : String) : Except Unit URLM :=
  match schemeSplit [] s.toList with
  | Except.ok (some sch) => Except.ok { scheme := sch.toLower, raw := s }
  | _ => Except.error ()

/-- `strings.TrimSuffix(s, "/")` on a character list. -/
def dropTrailSlash (l : List Char) : List Char :=
  match l.reverse with
  | c :: rest => if c = '/' then rest.reverse else l
  | [] => l

/-- `strings.TrimPrefix(s, "/")` on a character list. -/
def dropLeadSlash (l : List Char) : List Char :=
  match l with
  | c :: rest => if c = '/' then rest else l
  | [] => l

/-- One fold step of gunk's `urljoiner.Join` (empty parts are skipped). -/
def joinPart (u : List Char) (p : List Char) : List Char :=
  if p = [] then u else dropTrailSlash u ++ '/' :: dropLeadSlash p

/-- models `urljoiner.Join` from cloudfoundry/gunk (external package): join
URL parts with single slashes. -/
def urljoin (addr : String) (paths : List String) : String :=
  String.mk (paths.foldl (fun u p => joinPart u p.toList) addr.toList)

/-- Modelled from the spec: the file server's static route path produced by
`fileserver.Routes.CreatePathForRoute(fileserver.StaticRoute, nil)` (the
file-server package is not under src/); the spec fixes the literal
`/v1/static/`. -/
def staticPath : String := "/v1/static/"

/-- Modelled from the spec: `Config.CallbackURL` (backend.go is not under
src/): `stager_url + "/v1/staging/" + guid + "/completed"`. -/
def callbackURL (cfg : Config) (stagingGuid : String) : String :=
  cfg.stagerURL ++ "/v1/staging/" ++ stagingGuid ++ "/completed"

/-- models.PreloadedRootFS from the bbs models package (external): the
preloaded rootfs URL for a stack. -/
def preloadedRootFS (stack : String) : String := "preloaded:" ++ stack

/-- models `net.SplitHostPort`, restricted to unbracketed addresses: split at
the single colon; no colon or more than one colon is an error. -/
def splitOnColon : List Char → Option (List Char × List Char)
  | [] => none
  | c :: cs =>
    if c = ':' then
      if cs.contains ':' then none else some ([], cs)
    else
      match splitOnColon cs with
      | some (h, p) => some (c :: h, p)
      | none => none

def splitHostPort (s : String) : Option (String × String) :=
  if s.toList.contains '[' then none
  else
    match splitOnColon s.toList with
    | some (h, p) => some (String.mk h, String.mk p)
    | none => none

/-! ### The docker backend -/

/-- Go map lookup `config.Lifecycles[k]`: a missing key yields the zero
value `""`. -/
def lookupLifecycle (m : List (String × String)) (k : String) : String :=
  match m.find? (fun p => p.1 = k) with
  | some p => p.2
  | none => ""

/-- dockerBackend.compilerDownloadURL. -/
def compilerDownloadURL (cfg : Config) : Except BackendError URLM :=
  let lifecycleFilename := lookupLifecycle cfg.lifecycles "docker"
  if lifecycleFilename = "" then Except.error BackendError.noCompilerDefined
  else
    match urlParse lifecycleFilename with
    | Except.error _ => Except.error BackendError.compilerURLParseFailed
    | Except.ok parsed =>
      if parsed.scheme = "http" ∨ parsed.scheme = "https" then Except.ok parsed
      else if parsed.scheme = "" then
        match parseRequestURI (urljoin cfg.fileServerURL [staticPath, lifecycleFilename]) with
        | Except.ok u => Except.ok u
        | Except.error _ => Except.error BackendError.downloadURLParseFailed
      else Except.error (BackendError.unknownScheme parsed.scheme)

/-- dockerBackend.validateRequest: `some err` models a non-nil error. -/
def validateRequest (stagingRequest : StagingRequestFromCC)
    (dockerData : DockerStagingData) : Option BackendError :=
  if stagingRequest.appId.length = 0 then some BackendError.missingAppId
  else if dockerData.dockerImageUrl.length = 0 then some BackendError.missingDockerImageUrl
  else if 0 < dockerData.dockerUser.length + dockerData.dockerPassword.length
            + dockerData.dockerEmail.length ∧
          (dockerData.dockerUser.length = 0 ∨ dockerData.dockerPassword.length = 0 ∨
           dockerData.dockerEmail.length = 0) then
    some BackendError.missingDockerCredentials
  else none

/-- dockerTimeout: the effective staging timeout in nanoseconds. -/
def dockerTimeout (request : StagingRequestFromCC) : Int :=
  if request.timeout > 0 then toInt64 (request.timeout * nsPerSecond)
  else DefaultStagingTimeout

/-- The egress rule built for one discovered registry. -/
def dockerRegistryRule (registry : ConsulServiceInfo) : SecurityGroupRule :=
  { protocol := TCPProtocol
    destinations := [registry.address]
    ports := [8080] }

/-- addDockerRegistryRules: append one TCP/8080 rule per registry to the
given egress rules and return the extended slice. -/
def addDockerRegistryRules (egressRules : List SecurityGroupRule)
    (registries : List ConsulServiceInfo) : List SecurityGroupRule :=
  egressRules ++ registries.map dockerRegistryRule

/-- buildDockerRegistryAddresses. -/
def buildDockerRegistryAddresses (services : List ConsulServiceInfo) : List String :=
  services.map (fun s => s.address)

/-- getDockerRegistryServices: one HTTP GET against the consul catalog,
decode the body, reject an empty list.  Consumes exactly the head of the
pending-response list; the unconsumed remainder is returned. -/
def getDockerRegistryServices :
    List HttpResult → Except BackendError (List ConsulServiceInfo) × List HttpResult
  | [] => (Except.error (BackendError.consulTransport "no response"), [])
  | HttpResult.transportError msg :: rest =>
    (Except.error (BackendError.consulTransport msg), rest)
  | HttpResult.ok body :: rest =>
    match unmarshalServices body with
    | none => (Except.error BackendError.consulBodyUnmarshalFailed, rest)
    | some ips =>
      if ips.length = 0 then (Except.error BackendError.missingDockerRegistry, rest)
      else (Except.ok ips, rest)

/-- addDockerCachingArguments (the Go function's error result is always nil,
so it is modelled as a plain list). -/
def addDockerCachingArguments (args : List String) (registryIPs : String)
    (insecureRegistry : Bool) (host port : String)
    (stagingData : DockerStagingData) : List String :=
  let args := args ++ ["-cacheDockerImage", "-dockerRegistryHost", host,
    "-dockerRegistryPort", port, "-dockerRegistryIPs", registryIPs]
  let args := if insecureRegistry then
      args ++ ["-insecureDockerRegistries", host ++ ":" ++ port]
    else args
  let args := if 0 < stagingData.dockerLoginServer.length then
      args ++ ["-dockerLoginServer", stagingData.dockerLoginServer]
    else args
  if 0 < stagingData.dockerUser.length then
    args ++ ["-dockerUser", stagingData.dockerUser,
      "-dockerPassword", stagingData.dockerPassword,
      "-dockerEmail", stagingData.dockerEmail]
  else args

/-- The image-caching opt-in: the loop over `request.Environment` looking
for `DIEGO_DOCKER_CACHE == "true"`. -/
def cachingEnabled (request : StagingRequestFromCC) : Bool :=
  request.environment.any
    (fun envVar => envVar.name = "DIEGO_DOCKER_CACHE" && envVar.value = "true")

/-- The download-builder action (`path.Dir(DockerBuilderExecutablePath)` is
`/tmp/docker_app_lifecycle`). -/
def downloadBuilderAction (compilerURLString : String) : ActionM :=
  ActionM.emitProgress
    (ActionM.download "" compilerURLString "/tmp/docker_app_lifecycle"
      "docker-lifecycle" "vcap")
    "" "" "Failed to set up docker environment"

/-- The run-builder action. -/
def runBuilderAction (request : StagingRequestFromCC) (runArgs : List String)
    (runAs : String) : ActionM :=
  ActionM.emitProgress
    (ActionM.run DockerBuilderExecutablePath runArgs request.environment
      (toUInt64Nat request.fileDescriptors) runAs)
    "Staging..." "Staging Complete" "Staging Failed"

/-- The task definition literal at the end of BuildRecipe. -/
def mkTaskDef (cfg : Config) (stagingGuid : String)
    (request : StagingRequestFromCC) (egressRules : List SecurityGroupRule)
    (compilerURLString : String) (runArgs : List String) (runAs : String) :
    TaskDefinition :=
  { rootFs := preloadedRootFS cfg.dockerStagingStack
    resultFile := DockerBuilderOutputPath
    privileged := true
    memoryMb := toInt32 request.memoryMB
    diskMb := toInt32 request.diskMB
    logSource := TaskLogSource
    logGuid := request.logGuid
    egressRules := egressRules
    completionCallbackUrl := callbackURL cfg stagingGuid
    annotationJson := marshalAnnot DockerLifecycleName
    action := ActionM.timeout
      (ActionM.serial [downloadBuilderAction compilerURLString,
        runBuilderAction request runArgs runAs])
      (dockerTimeout request) }

/-- The base run-action argument list. -/
def baseRunArgs (lifecycleData : DockerStagingData) : List String :=
  ["-outputMetadataJSONFilename", DockerBuilderOutputPath,
   "-dockerRef", lifecycleData.dockerImageUrl]

/-- dockerBackend.BuildRecipe.  The pending consul responses are threaded
through; the returned list is what later GETs would still see, so the
difference between input and output lists is exactly the requests made. -/
def BuildRecipe (cfg : Config) (consul : List HttpResult) (stagingGuid : String)
    (request : StagingRequestFromCC) :
    Except BackendError (TaskDefinition × String × String) × List HttpResult :=
  match request.lifecycleData with
  | none => (Except.error BackendError.lifecycleDataUnmarshalFailed, consul)
  | some lifecycleData =>
    match validateRequest request lifecycleData with
    | some err => (Except.error err, consul)
    | none =>
      match compilerDownloadURL cfg with
      | Except.error err => (Except.error err, consul)
      | Except.ok compilerURL =>
        if cachingEnabled request then
          match splitHostPort cfg.dockerRegistryAddress with
          | none => (Except.error BackendError.invalidDockerRegistryAddress, consul)
          | some (host, port) =>
            match getDockerRegistryServices consul with
            | (Except.error err, consulRest) => (Except.error err, consulRest)
            | (Except.ok registryServices, consulRest) =>
              (Except.ok
                (mkTaskDef cfg stagingGuid request
                  (request.egressRules ++
                    addDockerRegistryRules request.egressRules registryServices)
                  compilerURL.raw
                  (addDockerCachingArguments (baseRunArgs lifecycleData)
                    (String.intercalate "," (buildDockerRegistryAddresses registryServices))
                    cfg.insecureDockerRegistry host port lifecycleData)
                  "root",
                 stagingGuid, cfg.taskDomain), consulRest)
        else
          (Except.ok
            (mkTaskDef cfg stagingGuid request request.egressRules compilerURL.raw
              (baseRunArgs lifecycleData) "vcap",
             stagingGuid, cfg.taskDomain), consul)

/-- dockerBackend.BuildStagingResponse. -/
def BuildStagingResponse (cfg : Config) (taskResponse : TaskCallbackResponse) :
    Except BackendError StagingResponseForCC :=
  match unmarshalAnnot taskResponse.annotationJson with
  | none => Except.error BackendError.annotationUnmarshalFailed
  | some _lifecycle =>
    if taskResponse.failed then
      Except.ok { error := some (cfg.sanitizer taskResponse.failureReason) }
    else
      match unmarshalDockerResult taskResponse.result with
      | none => Except.error BackendError.resultUnmarshalFailed
      | some result =>
        Except.ok { executionMetadata := result.executionMetadata
                    detectedStartCommand := result.detectedStartCommand
                    dockerImageLifecycleData := some result.dockerImage }

/-- The lifecycle backends the outbox can dispatch to. -/
inductive LifecycleBackend where
  | buildpack
  | docker
deriving DecidableEq, Repr

/-- Modelled from the spec: the outbox reads `annotation.lifecycle` from a
task callback and dispatches to the matching backend's response builder
(the outbox package is not under src/). -/
def dispatchLifecycle (lifecycle : String) : Option LifecycleBackend :=
  if lifecycle = "buildpack" then some LifecycleBackend.buildpack
  else if lifecycle = DockerLifecycleName then some LifecycleBackend.docker
  else none

/-- Extract the run step of a docker recipe's action tree: its arguments,
run user and file-descriptor limit. -/
def taskRunInfo (td : TaskDefinition) : Option (List String × String × Nat) :=
  match td.action with
  | ActionM.timeout (ActionM.serial
      [_, ActionM.emitProgress (ActionM.run _ args _ nofile user) _ _ _]) _ =>
    some (args, user, nofile)
  | _ => none

/-! ### Inversion of a successful BuildRecipe -/

/-- A successful `BuildRecipe` run decomposes into its intermediate steps:
the lifecycle payload decoded, validation passed, the compiler URL resolved,
and either the non-caching recipe (consul untouched) or the caching recipe
(registry address split, one consul request made). -/
theorem buildRecipe_ok_inv (cfg : Config) (consul : List HttpResult)
    (stagingGuid : String) (req : StagingRequestFromCC) (td : TaskDefinition)
    (g dom : String) (consulOut : List HttpResult)
    (hb : BuildRecipe cfg consul stagingGuid req =
      (Except.ok (td, g, dom), consulOut)) :
    ∃ d curl, req.lifecycleData = some d ∧ validateRequest req d = none ∧
      compilerDownloadURL cfg = Except.ok curl ∧ g = stagingGuid ∧
      dom = cfg.taskDomain ∧
      ((cachingEnabled req = false ∧ consulOut = consul ∧
          td = mkTaskDef cfg stagingGuid req req.egressRules curl.raw
            (baseRunArgs d) "vcap") ∨
        (∃ host port services, cachingEnabled req = true ∧
          splitHostPort cfg.dockerRegistryAddress = some (host, port) ∧
          getDockerRegistryServices consul = (Except.ok services, consulOut) ∧
          td = mkTaskDef cfg stagingGuid req
            (req.egressRules ++ addDockerRegistryRules req.egressRules services)
            curl.raw
            (addDockerCachingArguments (baseRunArgs d)
              (String.intercalate "," (buildDockerRegistryAddresses services))
              cfg.insecureDockerRegistry host port d) "root")) := by
  unfold BuildRecipe at hb
  split at hb
  · simp at hb
  next d hd =>
    split at hb
    · simp at hb
    next hval =>
      split at hb
      · simp at hb
      next curl hcurl =>
        split at hb
        next hcache =>
          split at hb
          · simp at hb
          next host port hsplit =>
            split at hb
            next err consulRest hsvc => simp at hb
            next services consulRest hsvc =>
              simp only [Prod.mk.injEq, Except.ok.injEq] at hb
              obtain ⟨⟨htd, hg, hdom⟩, hco⟩ := hb
              exact ⟨d, curl, hd, hval, hcurl, hg.symm, hdom.symm,
                Or.inr ⟨host, port, services, hcache, hsplit, hco ▸ hsvc, htd.symm⟩⟩
        next hcache =>
          simp only [Prod.mk.injEq, Except.ok.injEq] at hb
          obtain ⟨⟨htd, hg, hdom⟩, hco⟩ := hb
          exact ⟨d, curl, hd, hval, hcurl, hg.symm, hdom.symm,
            Or.inl ⟨by simpa using hcache, hco.symm, htd.symm⟩⟩

/-! ### Concrete fixtures used by witnesses and counterexamples -/

def sanitizerW : String → StagingError :=
  fun msg => { id := "STAGING_ERROR", message := msg }

def ruleW : SecurityGroupRule :=
  { protocol := "TCP", destinations := ["0.0.0.0/0"], ports := [80] }

def cfgW : Config :=
  { taskDomain := "config-task-domain"
    stagerURL := "http://stager.example.com"
    fileServerURL := "http://file-server.com"
    dockerStagingStack := "docker-stack"
    dockerRegistryAddress := "docker-registry.service.cf.internal:8080"
    insecureDockerRegistry := true
    lifecycles := [("docker", "http://compiler.example.com/docker_app_lifecycle.tgz")]
    minMemoryMB := 1024
    minDiskMB := 3072
    minFileDescriptors := 0
    sanitizer := sanitizerW }

def dataW : DockerStagingData := { dockerImageUrl := "busybox" }

def reqW : StagingRequestFromCC :=
  { appId := "bunny"
    logGuid := "bunny"
    fileDescriptors := 512
    memoryMB := 512
    diskMB := 512
    timeout := 512
    environment := []
    egressRules := [ruleW]
    lifecycleData := some dataW }

def tdW : TaskDefinition :=
  mkTaskDef cfgW "staging-guid" reqW reqW.egressRules
    "http://compiler.example.com/docker_app_lifecycle.tgz" (baseRunArgs dataW) "vcap"

def dataC : DockerStagingData :=
  { dockerImageUrl := "busybox"
    dockerLoginServer := "http://loginServer.com"
    dockerUser := "user"
    dockerPassword := "password"
    dockerEmail := "email@example.com" }

def reqC : StagingRequestFromCC :=
  { reqW with
    environment := [{ name := "DIEGO_DOCKER_CACHE", value := "true" }]
    lifecycleData := some dataC }

def consulC : List HttpResult :=
  [HttpResult.ok "[\x7b\"Address\":\"10.244.2.6\"\x7d,\x7b\"Address\":\"10.244.2.7\"\x7d]"]

def servicesC : List ConsulServiceInfo :=
  [{ address := "10.244.2.6" }, { address := "10.244.2.7" }]

def tdC : TaskDefinition :=
  mkTaskDef cfgW "staging-guid" reqC
    (reqC.egressRules ++ addDockerRegistryRules reqC.egressRules servicesC)
    "http://compiler.example.com/docker_app_lifecycle.tgz"
    (addDockerCachingArguments (baseRunArgs dataC) "10.244.2.6,10.244.2.7" true
      "docker-registry.service.cf.internal" "8080" dataC) "root"

/-! ### Claims -/

/-- C10: every task recipe produced by the docker backend's BuildRecipe has
privileged = true, regardless of whether image-caching mode is enabled. -/
theorem dockerRecipe_privileged (cfg : Config) (consul : List HttpResult)
    (stagingGuid : String) (req : StagingRequestFromCC) (td : TaskDefinition)
    (g dom : String) (consulOut : List HttpResult)
    (hb : BuildRecipe cfg consul stagingGuid req =
      (Except.ok (td, g, dom), consulOut)) :
    td.privileged = true := by
  obtain ⟨d, curl, _, _, _, _, _, hcase⟩ :=
    buildRecipe_ok_inv cfg consul stagingGuid req td g dom consulOut hb
  rcases hcase with ⟨_, _, htd⟩ | ⟨host, port, services, _, _, _, htd⟩ <;>
    subst htd <;> rfl

/-- Witness for C10 at a concrete non-caching request. -/
theorem dockerRecipe_privileged_witness : tdW.privileged = true :=
  dockerRecipe_privileged cfgW [] "staging-guid" reqW tdW "staging-guid"
    "config-task-domain" [] (by with_unfolding_all rfl)

/-- C2: for every accepted docker staging request the recipe's root action is
Timeout(Serial(...), t) with t = request.timeout seconds (as a wrapped int64
nanosecond count) when request.timeout > 0, and the 15-minute default
(900 s) otherwise. -/
theorem dockerRecipe_rootAction_timeout (cfg : Config) (consul : List HttpResult)
    (stagingGuid : String) (req : StagingRequestFromCC) (td : TaskDefinition)
    (g dom : String) (consulOut : List HttpResult)
    (hb : BuildRecipe cfg consul stagingGuid req =
      (Except.ok (td, g, dom), consulOut)) :
    ∃ steps, td.action = ActionM.timeout (ActionM.serial steps) (dockerTimeout req) ∧
      dockerTimeout req =
        (if 0 < req.timeout then toInt64 (req.timeout * nsPerSecond)
         else DefaultStagingTimeout) ∧
      DefaultStagingTimeout = 900 * nsPerSecond := by
  obtain ⟨d, curl, _, _, _, _, _, hcase⟩ :=
    buildRecipe_ok_inv cfg consul stagingGuid req td g dom consulOut hb
  rcases hcase with ⟨_, _, htd⟩ | ⟨host, port, services, _, _, _, htd⟩ <;>
    subst htd <;> exact ⟨_, rfl, rfl, rfl⟩

/-- Witness for C2 at a concrete request with timeout 512 s. -/
theorem dockerRecipe_rootAction_timeout_witness :
    ∃ steps, tdW.action = ActionM.timeout (ActionM.serial steps) (dockerTimeout reqW) ∧
      dockerTimeout reqW =
        (if 0 < reqW.timeout then toInt64 (reqW.timeout * nsPerSecond)
         else DefaultStagingTimeout) ∧
      DefaultStagingTimeout = 900 * nsPerSecond :=
  dockerRecipe_rootAction_timeout cfgW [] "staging-guid" reqW tdW "staging-guid"
    "config-task-domain" [] (by with_unfolding_all rfl)

/-- C1 counterexample: a request with memory_mb = 512 below the configured
min_memory_mb = 1024 (and disk 512 below min_disk_mb = 3072) is accepted by
the docker BuildRecipe, and the produced recipe keeps memory_mb = 512 and
disk_mb = 512: the docker backend applies no floor, so the claimed invariant
memory_mb >= min_memory_mb fails. -/
theorem dockerRecipeMemoryFloor_cex :
    (BuildRecipe cfgW [] "staging-guid" reqW).1 =
        Except.ok (tdW, "staging-guid", "config-task-domain") ∧
    reqW.memoryMB = 512 ∧ reqW.diskMB = 512 ∧
    cfgW.minMemoryMB = 1024 ∧ cfgW.minDiskMB = 3072 ∧
    tdW.memoryMb = 512 ∧ tdW.diskMb = 512 ∧
    tdW.memoryMb < cfgW.minMemoryMB ∧ tdW.diskMb < cfgW.minDiskMB := by
  refine ⟨by with_unfolding_all rfl, rfl, rfl, rfl, rfl, by decide, by decide,
    by decide, by decide⟩

/-- C1 (amended): the docker BuildRecipe copies memory_mb, disk_mb and the
file-descriptor limit from the request unchanged (up to Go's int32/uint64
conversions); no minimum floor is enforced by the docker backend. -/
theorem dockerRecipe_resources_passthrough (cfg : Config)
    (consul : List HttpResult) (stagingGuid : String)
    (req : StagingRequestFromCC) (td : TaskDefinition) (g dom : String)
    (consulOut : List HttpResult)
    (hb : BuildRecipe cfg consul stagingGuid req =
      (Except.ok (td, g, dom), consulOut)) :
    td.memoryMb = toInt32 req.memoryMB ∧ td.diskMb = toInt32 req.diskMB ∧
    ∃ args user, taskRunInfo td = some (args, user, toUInt64Nat req.fileDescriptors) := by
  obtain ⟨d, curl, _, _, _, _, _, hcase⟩ :=
    buildRecipe_ok_inv cfg consul stagingGuid req td g dom consulOut hb
  rcases hcase with ⟨_, _, htd⟩ | ⟨host, port, services, _, _, _, htd⟩ <;>
    subst htd <;> exact ⟨rfl, rfl, _, _, rfl⟩

/-- Witness for the amended C1 at a concrete request. -/
theorem dockerRecipe_resources_passthrough_witness :
    tdW.memoryMb = toInt32 reqW.memoryMB ∧ tdW.diskMb = toInt32 reqW.diskMB ∧
    ∃ args user, taskRunInfo tdW = some (args, user, toUInt64Nat reqW.fileDescriptors) :=
  dockerRecipe_resources_passthrough cfgW [] "staging-guid" reqW tdW
    "staging-guid" "config-task-domain" [] (by with_unfolding_all rfl)

/-- A request with partial docker credentials but an empty app id. -/
def reqPartialNoApp : StagingRequestFromCC :=
  { appId := ""
    lifecycleData := some { dockerImageUrl := "busybox", dockerUser := "user" } }

/-- C4 counterexample: a docker staging request whose lifecycle data has some
but not all credentials set (user only) but whose app id is empty makes
BuildRecipe return MissingAppId, not MissingDockerCredentials: the app-id and
image-url validations run first. -/
theorem dockerCredentials_partial_cex :
    (∃ d, reqPartialNoApp.lifecycleData = some d ∧ 0 < d.dockerUser.length ∧
      d.dockerPassword.length = 0 ∧ d.dockerEmail.length = 0) ∧
    (BuildRecipe cfgW [] "staging-guid" reqPartialNoApp).1 =
      Except.error BackendError.missingAppId ∧
    BackendError.missingAppId ≠ BackendError.missingDockerCredentials := by
  exact ⟨⟨_, rfl, by decide, rfl, rfl⟩, rfl, by decide⟩

/-- C4 (amended): for every docker staging request with non-empty app_id and
non-empty docker_image_url, partial credentials (some but not all of user,
password, email non-empty) make BuildRecipe return MissingDockerCredentials
with no recipe and no consul request; and when all three are non-empty or
all three are empty, validateRequest accepts the request. -/
theorem dockerCredentials_allOrNothing (cfg : Config) (consul : List HttpResult)
    (stagingGuid : String) (req : StagingRequestFromCC) (d : DockerStagingData)
    (hd : req.lifecycleData = some d) (happ : req.appId.length ≠ 0)
    (himg : d.dockerImageUrl.length ≠ 0) :
    ((0 < d.dockerUser.length + d.dockerPassword.length + d.dockerEmail.length ∧
        (d.dockerUser.length = 0 ∨ d.dockerPassword.length = 0 ∨
          d.dockerEmail.length = 0)) →
      BuildRecipe cfg consul stagingGuid req =
        (Except.error BackendError.missingDockerCredentials, consul)) ∧
    (((d.dockerUser.length ≠ 0 ∧ d.dockerPassword.length ≠ 0 ∧
        d.dockerEmail.length ≠ 0) ∨
      (d.dockerUser.length = 0 ∧ d.dockerPassword.length = 0 ∧
        d.dockerEmail.length = 0)) →
      validateRequest req d = none) := by
  constructor
  · intro hcred
    have hval : validateRequest req d = some BackendError.missingDockerCredentials := by
      unfold validateRequest
      rw [if_neg happ, if_neg himg, if_pos hcred]
    unfold BuildRecipe
    rw [hd]
    simp only [hval]
  · intro hcred
    unfold validateRequest
    rw [if_neg happ, if_neg himg, if_neg (by omega)]

/-- Partial-credentials request (app id and image present, user only). -/
def reqPartialCreds : StagingRequestFromCC :=
  { appId := "bunny"
    lifecycleData := some { dockerImageUrl := "busybox", dockerUser := "user" } }

/-- Witness for the amended C4: a partial-credentials request is rejected
with MissingDockerCredentials, and a full-credentials request passes
validation. -/
theorem dockerCredentials_allOrNothing_witness :
    BuildRecipe cfgW [] "staging-guid" reqPartialCreds =
      (Except.error BackendError.missingDockerCredentials, []) ∧
    validateRequest reqC dataC = none := by
  constructor
  · exact (dockerCredentials_allOrNothing cfgW [] "staging-guid" reqPartialCreds
      { dockerImageUrl := "busybox", dockerUser := "user" } rfl (by decide)
      (by decide)).1 (by decide)
  · exact (dockerCredentials_allOrNothing cfgW [] "staging-guid" reqC dataC rfl
      (by decide) (by decide)).2 (Or.inl (by decide))

/-- C6: for every accepted docker staging request without the
DIEGO_DOCKER_CACHE="true" environment variable, the run action's arguments
are exactly the four base arguments, the run user is "vcap", the egress
rules are the request's unchanged, and no consul request is made. -/
theorem dockerRecipe_noCaching_args (cfg : Config) (consul : List HttpResult)
    (stagingGuid : String) (req : StagingRequestFromCC) (td : TaskDefinition)
    (g dom : String) (consulOut : List HttpResult) (d : DockerStagingData)
    (hd : req.lifecycleData = some d)
    (hcache : cachingEnabled req = false)
    (hb : BuildRecipe cfg consul stagingGuid req =
      (Except.ok (td, g, dom), consulOut)) :
    taskRunInfo td = some
      (["-outputMetadataJSONFilename", "/tmp/docker-result/result.json",
        "-dockerRef", d.dockerImageUrl],
       "vcap", toUInt64Nat req.fileDescriptors) ∧
    td.egressRules = req.egressRules ∧
    consulOut = consul := by
  obtain ⟨d', curl, hd', hval, hcurl, hg, hdom, hcase⟩ :=
    buildRecipe_ok_inv cfg consul stagingGuid req td g dom consulOut hb
  rw [hd] at hd'
  injection hd' with hdd
  subst hdd
  rcases hcase with ⟨_, hco, htd⟩ | ⟨host, port, services, hct, _, _, _⟩
  · subst htd
    exact ⟨rfl, rfl, hco⟩
  · rw [hcache] at hct
    exact absurd hct (by simp)

/-- Witness for C6 at a concrete non-caching request. -/
theorem dockerRecipe_noCaching_args_witness :
    taskRunInfo tdW = some
      (["-outputMetadataJSONFilename", "/tmp/docker-result/result.json",
        "-dockerRef", dataW.dockerImageUrl],
       "vcap", toUInt64Nat reqW.fileDescriptors) ∧
    tdW.egressRules = reqW.egressRules ∧
    ([] : List HttpResult) = [] :=
  dockerRecipe_noCaching_args cfgW [] "staging-guid" reqW tdW "staging-guid"
    "config-task-domain" [] dataW rfl rfl (by with_unfolding_all rfl)

/-- A request that passes validateRequest satisfies the all-or-nothing
credentials rule: the user field is set iff all three credential fields are. -/
theorem validateRequest_none_creds (req : StagingRequestFromCC)
    (d : DockerStagingData) (h : validateRequest req d = none) :
    0 < d.dockerUser.length ↔
      0 < d.dockerUser.length ∧ 0 < d.dockerPassword.length ∧
        0 < d.dockerEmail.length := by
  unfold validateRequest at h
  split at h
  · simp at h
  split at h
  · simp at h
  split at h
  · simp at h
  next hcond => omega

/-- The argument list built by addDockerCachingArguments, flattened. -/
theorem addDockerCachingArguments_eq (args : List String) (registryIPs : String)
    (insecureRegistry : Bool) (host port : String) (d : DockerStagingData) :
    addDockerCachingArguments args registryIPs insecureRegistry host port d =
      args ++ ["-cacheDockerImage", "-dockerRegistryHost", host,
          "-dockerRegistryPort", port, "-dockerRegistryIPs", registryIPs]
        ++ (if insecureRegistry then
              ["-insecureDockerRegistries", host ++ ":" ++ port] else [])
        ++ (if 0 < d.dockerLoginServer.length then
              ["-dockerLoginServer", d.dockerLoginServer] else [])
        ++ (if 0 < d.dockerUser.length then
              ["-dockerUser", d.dockerUser, "-dockerPassword", d.dockerPassword,
               "-dockerEmail", d.dockerEmail] else []) := by
  unfold addDockerCachingArguments
  split <;> split <;> split <;> simp [List.append_assoc]

/-- C7: in docker image-caching mode the builder arguments extend the base
arguments in exactly the claimed order (caching flag, registry host, port,
comma-joined IPs, then the insecure-registry pair iff configured, the login
server iff non-empty, and the three credential pairs iff credentials are
present), and the run user is "root".  By the credentials validation,
"user set" coincides with "all credentials present". -/
theorem dockerRecipe_caching_args (cfg : Config) (consul : List HttpResult)
    (stagingGuid : String) (req : StagingRequestFromCC) (td : TaskDefinition)
    (g dom : String) (consulOut : List HttpResult) (d : DockerStagingData)
    (host port : String) (services : List ConsulServiceInfo)
    (hd : req.lifecycleData = some d)
    (hcache : cachingEnabled req = true)
    (hsplit : splitHostPort cfg.dockerRegistryAddress = some (host, port))
    (hsvc : getDockerRegistryServices consul = (Except.ok services, consulOut))
    (hb : BuildRecipe cfg consul stagingGuid req =
      (Except.ok (td, g, dom), consulOut)) :
    taskRunInfo td = some
      (["-outputMetadataJSONFilename", "/tmp/docker-result/result.json",
          "-dockerRef", d.dockerImageUrl]
        ++ ["-cacheDockerImage", "-dockerRegistryHost", host,
            "-dockerRegistryPort", port, "-dockerRegistryIPs",
            String.intercalate "," (services.map (fun s => s.address))]
        ++ (if cfg.insecureDockerRegistry then
              ["-insecureDockerRegistries", host ++ ":" ++ port] else [])
        ++ (if 0 < d.dockerLoginServer.length then
              ["-dockerLoginServer", d.dockerLoginServer] else [])
        ++ (if 0 < d.dockerUser.length then
              ["-dockerUser", d.dockerUser, "-dockerPassword", d.dockerPassword,
               "-dockerEmail", d.dockerEmail] else []),
       "root", toUInt64Nat req.fileDescriptors) ∧
    (0 < d.dockerUser.length ↔
      0 < d.dockerUser.length ∧ 0 < d.dockerPassword.length ∧
        0 < d.dockerEmail.length) := by
  obtain ⟨d', curl, hd', hval, hcurl, hg, hdom, hcase⟩ :=
    buildRecipe_ok_inv cfg consul stagingGuid req td g dom consulOut hb
  rw [hd] at hd'
  injection hd' with hdd
  subst hdd
  rcases hcase with ⟨hct, _, _⟩ | ⟨host', port', services', _, hsplit', hsvc', htd⟩
  · rw [hcache] at hct
    exact absurd hct (by simp)
  · rw [hsplit] at hsplit'
    injection hsplit' with hpair
    obtain ⟨hh, hp⟩ := Prod.mk.injEq .. ▸ hpair
    rw [hsvc] at hsvc'
    obtain ⟨hs1, _⟩ := Prod.mk.injEq .. ▸ hsvc'
    injection hs1 with hs
    subst htd
    refine ⟨?_, validateRequest_none_creds req d hval⟩
    show some (addDockerCachingArguments _ _ _ _ _ _, "root",
      toUInt64Nat req.fileDescriptors) = _
    rw [addDockerCachingArguments_eq, hh, hp, hs]
    rfl

/-- Witness for C7 at a concrete caching request with insecure registry,
login server and full credentials. -/
theorem dockerRecipe_caching_args_witness :
    taskRunInfo tdC = some
      (["-outputMetadataJSONFilename", "/tmp/docker-result/result.json",
        "-dockerRef", "busybox", "-cacheDockerImage", "-dockerRegistryHost",
        "docker-registry.service.cf.internal", "-dockerRegistryPort", "8080",
        "-dockerRegistryIPs", "10.244.2.6,10.244.2.7",
        "-insecureDockerRegistries", "docker-registry.service.cf.internal:8080",
        "-dockerLoginServer", "http://loginServer.com", "-dockerUser", "user",
        "-dockerPassword", "password", "-dockerEmail", "email@example.com"],
       "root", 512) ∧
    (0 < dataC.dockerUser.length ↔
      0 < dataC.dockerUser.length ∧ 0 < dataC.dockerPassword.length ∧
        0 < dataC.dockerEmail.length) :=
  dockerRecipe_caching_args cfgW consulC "staging-guid" reqC tdC "staging-guid"
    "config-task-domain" [] dataC "docker-registry.service.cf.internal" "8080"
    servicesC rfl rfl (by with_unfolding_all rfl) (by with_unfolding_all rfl)
    (by with_unfolding_all rfl)

/-- C8: in docker image-caching mode the recipe's egress rules contain every
rule of the request and end with one TCP/8080 rule per discovered registry
address, in discovery order. -/
theorem dockerRecipe_caching_egress (cfg : Config) (consul : List HttpResult)
    (stagingGuid : String) (req : StagingRequestFromCC) (td : TaskDefinition)
    (g dom : String) (consulOut : List HttpResult) (d : DockerStagingData)
    (host port : String) (services : List ConsulServiceInfo)
    (hd : req.lifecycleData = some d)
    (hcache : cachingEnabled req = true)
    (hsplit : splitHostPort cfg.dockerRegistryAddress = some (host, port))
    (hsvc : getDockerRegistryServices consul = (Except.ok services, consulOut))
    (hb : BuildRecipe cfg consul stagingGuid req =
      (Except.ok (td, g, dom), consulOut)) :
    (∀ r ∈ req.egressRules, r ∈ td.egressRules) ∧
    (∃ pre, td.egressRules = pre ++ services.map dockerRegistryRule) := by
  obtain ⟨d', curl, hd', hval, hcurl, hg, hdom, hcase⟩ :=
    buildRecipe_ok_inv cfg consul stagingGuid req td g dom consulOut hb
  rcases hcase with ⟨hct, _, _⟩ | ⟨host', port', services', _, hsplit', hsvc', htd⟩
  · rw [hcache] at hct
    exact absurd hct (by simp)
  · rw [hsvc] at hsvc'
    obtain ⟨hs1, _⟩ := Prod.mk.injEq .. ▸ hsvc'
    injection hs1 with hs
    subst htd
    constructor
    · intro r hr
      show r ∈ req.egressRules ++ addDockerRegistryRules req.egressRules services'
      exact List.mem_append_left _ hr
    · refine ⟨req.egressRules ++ req.egressRules, ?_⟩
      show req.egressRules ++ addDockerRegistryRules req.egressRules services' = _
      rw [hs, addDockerRegistryRules, List.append_assoc]

/-- Witness for C8 at a concrete caching request with one original egress
rule and two discovered registries. -/
theorem dockerRecipe_caching_egress_witness :
    (∀ r ∈ reqC.egressRules, r ∈ tdC.egressRules) ∧
    (∃ pre, tdC.egressRules = pre ++ servicesC.map dockerRegistryRule) :=
  dockerRecipe_caching_egress cfgW consulC "staging-guid" reqC tdC
    "staging-guid" "config-task-domain" [] dataC
    "docker-registry.service.cf.internal" "8080" servicesC rfl
    (by with_unfolding_all rfl) (by with_unfolding_all rfl)
    (by with_unfolding_all rfl) (by with_unfolding_all rfl)

/-- In caching mode, an error from the consul request is returned by
BuildRecipe as-is, with the response stream advanced past the one consumed
response. -/
theorem buildRecipe_consul_error (cfg : Config) (consul : List HttpResult)
    (stagingGuid : String) (req : StagingRequestFromCC) (d : DockerStagingData)
    (curl : URLM) (host port : String) (err : BackendError)
    (consulRest : List HttpResult)
    (hd : req.lifecycleData = some d)
    (hval : validateRequest req d = none)
    (hcurl : compilerDownloadURL cfg = Except.ok curl)
    (hcache : cachingEnabled req = true)
    (hsplit : splitHostPort cfg.dockerRegistryAddress = some (host, port))
    (hsvc : getDockerRegistryServices consul = (Except.error err, consulRest)) :
    BuildRecipe cfg consul stagingGuid req = (Except.error err, consulRest) := by
  unfold BuildRecipe
  rw [hd]
  simp only [hval, hcurl, hcache, if_true, hsplit, hsvc]

/-- C9: with docker image caching enabled, a consul catalog response that
decodes to an empty JSON array makes BuildRecipe fail with
MissingDockerRegistry and produce no recipe; a transport error or an
undecodable body also surfaces as an error; in each case exactly one request
is made (the remaining response stream is the tail — no retry). -/
theorem dockerRecipe_consulErrors (cfg : Config) (stagingGuid : String)
    (req : StagingRequestFromCC) (d : DockerStagingData) (curl : URLM)
    (host port : String)
    (hd : req.lifecycleData = some d)
    (hval : validateRequest req d = none)
    (hcurl : compilerDownloadURL cfg = Except.ok curl)
    (hcache : cachingEnabled req = true)
    (hsplit : splitHostPort cfg.dockerRegistryAddress = some (host, port)) :
    (∀ body rest, unmarshalServices body = some [] →
      BuildRecipe cfg (HttpResult.ok body :: rest) stagingGuid req =
        (Except.error BackendError.missingDockerRegistry, rest)) ∧
    (∀ msg rest,
      BuildRecipe cfg (HttpResult.transportError msg :: rest) stagingGuid req =
        (Except.error (BackendError.consulTransport msg), rest)) ∧
    (∀ body rest, unmarshalServices body = none →
      BuildRecipe cfg (HttpResult.ok body :: rest) stagingGuid req =
        (Except.error BackendError.consulBodyUnmarshalFailed, rest)) := by
  refine ⟨fun body rest hbody => ?_, fun msg rest => ?_, fun body rest hbody => ?_⟩
  · exact buildRecipe_consul_error cfg _ stagingGuid req d curl host port _ rest
      hd hval hcurl hcache hsplit (by simp [getDockerRegistryServices, hbody])
  · exact buildRecipe_consul_error cfg _ stagingGuid req d curl host port _ rest
      hd hval hcurl hcache hsplit (by simp [getDockerRegistryServices])
  · exact buildRecipe_consul_error cfg _ stagingGuid req d curl host port _ rest
      hd hval hcurl hcache hsplit (by simp [getDockerRegistryServices, hbody])

/-- Witness for C9: the caching fixture against an empty consul array, a
transport error, and an undecodable body. -/
theorem dockerRecipe_consulErrors_witness :
    BuildRecipe cfgW [HttpResult.ok "[]"] "staging-guid" reqC =
      (Except.error BackendError.missingDockerRegistry, []) ∧
    BuildRecipe cfgW [HttpResult.transportError "connection refused"]
        "staging-guid" reqC =
      (Except.error (BackendError.consulTransport "connection refused"), []) ∧
    BuildRecipe cfgW [HttpResult.ok "not-json"] "staging-guid" reqC =
      (Except.error BackendError.consulBodyUnmarshalFailed, []) := by
  have h := dockerRecipe_consulErrors cfgW "staging-guid" reqC dataC
    { scheme := "http", raw := "http://compiler.example.com/docker_app_lifecycle.tgz" }
    "docker-registry.service.cf.internal" "8080" rfl (by with_unfolding_all rfl)
    (by with_unfolding_all rfl) (by with_unfolding_all rfl)
    (by with_unfolding_all rfl)
  exact ⟨h.1 "[]" [] (by with_unfolding_all rfl), h.2.1 "connection refused" [],
    h.2.2 "not-json" [] (by with_unfolding_all rfl)⟩

/-- C3: the annotation round-trips.  Every accepted docker staging request
gets the recipe annotation `marshalAnnot "docker"` (the JSON object with
lifecycle "docker"); deserializing it yields the docker lifecycle name, whose
dispatch selects the docker backend; and BuildStagingResponse applied to any
callback carrying that annotation never fails at annotation
deserialization. -/
theorem dockerAnnotation_roundtrip (cfg : Config) (consul : List HttpResult)
    (stagingGuid : String) (req : StagingRequestFromCC) (td : TaskDefinition)
    (g dom : String) (consulOut : List HttpResult)
    (hb : BuildRecipe cfg consul stagingGuid req =
      (Except.ok (td, g, dom), consulOut)) :
    td.annotationJson = marshalAnnot DockerLifecycleName ∧
    unmarshalAnnot td.annotationJson = some DockerLifecycleName ∧
    (unmarshalAnnot td.annotationJson).bind (fun l => dispatchLifecycle l) =
      some LifecycleBackend.docker ∧
    (∀ cb : TaskCallbackResponse, cb.annotationJson = td.annotationJson →
      BuildStagingResponse cfg cb ≠
        Except.error BackendError.annotationUnmarshalFailed) := by
  obtain ⟨d, curl, _, _, _, _, _, hcase⟩ :=
    buildRecipe_ok_inv cfg consul stagingGuid req td g dom consulOut hb
  have hann : td.annotationJson = marshalAnnot DockerLifecycleName := by
    rcases hcase with ⟨_, _, htd⟩ | ⟨host, port, services, _, _, _, htd⟩ <;>
      subst htd <;> rfl
  have hun : unmarshalAnnot td.annotationJson = some DockerLifecycleName := by
    rw [hann]; with_unfolding_all rfl
  refine ⟨hann, hun, by rw [hun]; rfl, fun cb hcb => ?_⟩
  unfold BuildStagingResponse
  rw [hcb, hun]
  cases cb.failed
  · cases hres : unmarshalDockerResult cb.result <;> simp [hres]
  · simp

/-- Witness for C3 at a concrete non-caching request. -/
theorem dockerAnnotation_roundtrip_witness :
    tdW.annotationJson = marshalAnnot DockerLifecycleName ∧
    unmarshalAnnot tdW.annotationJson = some DockerLifecycleName ∧
    (unmarshalAnnot tdW.annotationJson).bind (fun l => dispatchLifecycle l) =
      some LifecycleBackend.docker ∧
    (∀ cb : TaskCallbackResponse, cb.annotationJson = tdW.annotationJson →
      BuildStagingResponse cfgW cb ≠
        Except.error BackendError.annotationUnmarshalFailed) :=
  dockerAnnotation_roundtrip cfgW [] "staging-guid" reqW tdW "staging-guid"
    "config-task-domain" [] (by with_unfolding_all rfl)

/-- The URL returned by urlParse carries the input string verbatim. -/
theorem urlParse_ok_raw (s : String) (u : URLM) (h : urlParse s = Except.ok u) :
    u.raw = s := by
  unfold urlParse at h
  split at h
  · exact absurd h (by simp)
  · rw [Except.ok.injEq] at h
    rw [← h]
  · rw [Except.ok.injEq] at h
    rw [← h]

/-- The URL returned by parseRequestURI carries the input string verbatim. -/
theorem parseRequestURI_ok_raw (s : String) (u : URLM)
    (h : parseRequestURI s = Except.ok u) : u.raw = s := by
  unfold parseRequestURI at h
  split at h
  · rw [Except.ok.injEq] at h
    rw [← h]
  · exact absurd h (by simp)

/-- Trimming a trailing slash from a list that ends in one. -/
theorem dropTrailSlash_append_slash (a : List Char) :
    dropTrailSlash (a ++ ['/']) = a := by
  unfold dropTrailSlash
  rw [List.reverse_append]
  simp

/-- The shape of `urljoiner.Join(fs, "/v1/static/", v)` when the base URL has
no trailing slash and the value has no leading slash. -/
theorem urljoin_static (fs v : String)
    (hfs : dropTrailSlash fs.toList = fs.toList)
    (hv : dropLeadSlash v.toList = v.toList)
    (hne : v.toList ≠ []) :
    urljoin fs [staticPath, v] = fs ++ "/v1/static/" ++ v := by
  have h2 : staticPath.toList ≠ [] := by decide
  have h3 : '/' :: dropLeadSlash staticPath.toList = staticPath.toList := by decide
  have h1 : staticPath.toList = ("/v1/static" : String).toList ++ ['/'] := by decide
  unfold urljoin
  simp only [List.foldl]
  unfold joinPart
  rw [if_neg h2, if_neg hne, hfs, hv, h3, h1, ← List.append_assoc,
    dropTrailSlash_append_slash]
  cases fs with
  | mk fl =>
    cases v with
    | mk vl =>
      show String.mk ((fl ++ ("/v1/static" : String).toList) ++ '/' :: vl) = _
      show _ = String.mk ((fl ++ ("/v1/static/" : String).toList) ++ vl)
      have h4 : ("/v1/static/" : String).toList =
          ("/v1/static" : String).toList ++ ['/'] := by decide
      rw [h4]
      simp [List.append_assoc]

/-- C5: compiler URL resolution.  (1) A configured docker lifecycle value
parsing as an absolute http/https URL is returned verbatim.  (2) A
scheme-less value (with the base file-server URL free of a trailing slash
and the value free of a leading slash) resolves to
`file_server_url ++ "/v1/static/" ++ value`.  (3) Any other scheme is an
error.  (4) A missing "docker" key in the lifecycles map (Go zero value "")
yields NoCompilerDefined. -/
theorem compilerDownloadURL_resolution :
    (∀ cfg : Config, ∀ v : String, ∀ u : URLM,
      lookupLifecycle cfg.lifecycles "docker" = v → v ≠ "" →
      urlParse v = Except.ok u → (u.scheme = "http" ∨ u.scheme = "https") →
      compilerDownloadURL cfg = Except.ok u ∧ u.raw = v) ∧
    (∀ cfg : Config, ∀ v : String, ∀ u : URLM,
      lookupLifecycle cfg.lifecycles "docker" = v → v ≠ "" →
      urlParse v = Except.ok { scheme := "", raw := v } →
      dropTrailSlash cfg.fileServerURL.toList = cfg.fileServerURL.toList →
      dropLeadSlash v.toList = v.toList →
      parseRequestURI (urljoin cfg.fileServerURL [staticPath, v]) = Except.ok u →
      compilerDownloadURL cfg = Except.ok u ∧
        u.raw = cfg.fileServerURL ++ "/v1/static/" ++ v) ∧
    (∀ cfg : Config, ∀ v : String, ∀ u : URLM,
      lookupLifecycle cfg.lifecycles "docker" = v → v ≠ "" →
      urlParse v = Except.ok u → u.scheme ≠ "http" → u.scheme ≠ "https" →
      u.scheme ≠ "" →
      compilerDownloadURL cfg =
        Except.error (BackendError.unknownScheme u.scheme)) ∧
    (∀ cfg : Config, lookupLifecycle cfg.lifecycles "docker" = "" →
      compilerDownloadURL cfg = Except.error BackendError.noCompilerDefined) := by
  refine ⟨?_, ?_, ?_, ?_⟩
  · intro cfg v u hv hne hp hsch
    refine ⟨?_, urlParse_ok_raw v u hp⟩
    unfold compilerDownloadURL
    rw [hv, if_neg hne]
    simp only [hp]
    rw [if_pos hsch]
  · intro cfg v u hv hne hp hfs hvl hpr
    have hne' : v.toList ≠ [] := by
      intro hcontra
      apply hne
      cases v with
      | mk vl =>
        cases hcontra
        rfl
    constructor
    · unfold compilerDownloadURL
      rw [hv, if_neg hne]
      simp only [hp]
      rw [if_neg (by simp)]
      simp only [if_true, hpr]
    · rw [parseRequestURI_ok_raw _ u hpr, urljoin_static cfg.fileServerURL v hfs hvl hne']
  · intro cfg v u hv hne hp h1 h2 h3
    unfold compilerDownloadURL
    rw [hv, if_neg hne]
    simp only [hp]
    rw [if_neg (by simp [h1, h2]), if_neg h3]
  · intro cfg hv
    unfold compilerDownloadURL
    rw [hv, if_pos rfl]

def cfgURLFull : Config :=
  { cfgW with lifecycles := [("docker", "http://the-full-compiler-url")] }

def cfgURLRel : Config :=
  { cfgW with
    lifecycles := [("docker", "docker_lifecycle/docker_app_lifecycle.tgz")] }

def cfgURLBad : Config :=
  { cfgW with lifecycles := [("docker", "ftp://the-bad-compiler-url")] }

def cfgURLNone : Config := { cfgW with lifecycles := [] }

/-- Witness for C5: each of the four resolution cases at a concrete
configuration. -/
theorem compilerDownloadURL_resolution_witness :
    (compilerDownloadURL cfgURLFull =
        Except.ok { scheme := "http", raw := "http://the-full-compiler-url" } ∧
      (URLM.mk "http" "http://the-full-compiler-url").raw =
        "http://the-full-compiler-url") ∧
    (compilerDownloadURL cfgURLRel = Except.ok
        { scheme := "http"
          raw := "http://file-server.com/v1/static/docker_lifecycle/docker_app_lifecycle.tgz" } ∧
      (URLM.mk "http"
          "http://file-server.com/v1/static/docker_lifecycle/docker_app_lifecycle.tgz").raw =
        cfgURLRel.fileServerURL ++ "/v1/static/" ++
          "docker_lifecycle/docker_app_lifecycle.tgz") ∧
    compilerDownloadURL cfgURLBad =
      Except.error (BackendError.unknownScheme "ftp") ∧
    compilerDownloadURL cfgURLNone =
      Except.error BackendError.noCompilerDefined := by
  refine ⟨?_, ?_, ?_, ?_⟩
  · exact compilerDownloadURL_resolution.1 cfgURLFull "http://the-full-compiler-url"
      { scheme := "http", raw := "http://the-full-compiler-url" } rfl (by decide)
      (by with_unfolding_all rfl) (Or.inl rfl)
  · exact compilerDownloadURL_resolution.2.1 cfgURLRel
      "docker_lifecycle/docker_app_lifecycle.tgz"
      { scheme := "http"
        raw := "http://file-server.com/v1/static/docker_lifecycle/docker_app_lifecycle.tgz" }
      rfl (by decide) (by with_unfolding_all rfl) (by decide) (by decide)
      (by with_unfolding_all rfl)
  · exact compilerDownloadURL_resolution.2.2.1 cfgURLBad "ftp://the-bad-compiler-url"
      { scheme := "ftp", raw := "ftp://the-bad-compiler-url" } rfl (by decide)
      (by with_unfolding_all rfl) (by decide) (by decide) (by decide)
  · exact compilerDownloadURL_resolution.2.2.2 cfgURLNone rfl

end Stager
